import Mathlib

/-!
Verification of the Candle USB-CAN library core.

This file gives a shallow embedding of the C library (usb_can_lib.c) and of the
OBD-II helper layer of the C# wrapper (UsbCanDevice.cs), and proves the frozen
claims about them.

Modelling conventions:
* C integers are Nat with explicit bounds / wrap-around (% 2^32) where overflow
  matters; libusb return codes are Int (negative = error).
* The USB transport is explicit state: a queue of pending bulk-IN results, a
  trace of bulk-OUT payloads and a trace of control-OUT writes.  Bulk-OUT and
  control transfers are modelled as succeeding (the claims under study do not
  hinge on their failure); a bulk-IN attempt consumes the next queued result,
  and an empty queue yields the libusb timeout code -7, matching a blocking
  read that times out.
* The packed C structs are modelled field-by-field, with explicit little-endian
  byte-level encoders/decoders for the wire image.  The C source has no
  standalone decode functions (the struct is the wire image); the decoders with
  their exact-length guard follow the spec's codec contract over the source's
  packed struct layout.
* Output pointer parameters become Except/Option results: a C call that
  returns -1 without writing its outputs is modelled as an error value carrying
  no payload.
* LibState.started is a ghost field recording the last commanded device mode
  (set by usb_can_start, cleared by usb_can_stop).  The C code never reads any
  such flag; the ghost lets state-machine claims be stated.
-/

namespace Candle

/-- Read the byte at index i of a byte list; out-of-range reads give 0,
matching a read from the zero-initialized tail of a C buffer. -/
def nth : List Nat → Nat → Nat
  | [], _ => 0
  | a :: _, 0 => a
  | _ :: l, i + 1 => nth l i

/-- Little-endian encoding of a 32-bit value into four bytes. -/
def u32le (x : Nat) : List Nat :=
  [x % 256, x / 256 % 256, x / 65536 % 256, x / 16777216 % 256]

/-- Little-endian decoding of four bytes into a 32-bit value. -/
def de32 (a b c d : Nat) : Nat := a + 256 * b + 65536 * c + 16777216 * d

/-- Read the little-endian 32-bit value at byte offset i of a buffer. -/
def de32at (b : List Nat) (i : Nat) : Nat :=
  de32 (nth b i) (nth b (i + 1)) (nth b (i + 2)) (nth b (i + 3))

/-! Packed register and frame records, from the pragma pack(1) structs of
usb_can_lib.c. -/

/-- Host byte-order marker register (C struct gs_host_config, 4 bytes). -/
structure gs_host_config where
  byte_order : Nat
deriving DecidableEq

/-- Device configuration register (C struct gs_device_config, 12 bytes). -/
structure gs_device_config where
  reserved1 : Nat
  reserved2 : Nat
  reserved3 : Nat
  icount : Nat
  sw_version : Nat
  hw_version : Nat
deriving DecidableEq

/-- Identify-mode register (C struct gs_identify_mode, 4 bytes). -/
structure gs_identify_mode where
  mode : Nat
deriving DecidableEq

/-- Bit-timing constraint register (C struct gs_device_bt_const, 40 bytes). -/
structure gs_device_bt_const where
  feature : Nat
  fclk_can : Nat
  tseg1_min : Nat
  tseg1_max : Nat
  tseg2_min : Nat
  tseg2_max : Nat
  sjw_max : Nat
  brp_min : Nat
  brp_max : Nat
  brp_inc : Nat
deriving DecidableEq

/-- Bit-timing register (C struct gs_device_bittiming, 20 bytes). -/
structure gs_device_bittiming where
  prop_seg : Nat
  phase_seg1 : Nat
  phase_seg2 : Nat
  sjw : Nat
  brp : Nat
deriving DecidableEq

/-- Mode/flags register (C struct gs_device_mode, 8 bytes). -/
structure gs_device_mode where
  mode : Nat
  flags : Nat
deriving DecidableEq

/-- CAN frame wire record (C struct gs_host_frame, 24 bytes). -/
structure gs_host_frame where
  echo_id : Nat
  can_id : Nat
  can_dlc : Nat
  channel : Nat
  flags : Nat
  reserved : Nat
  data : List Nat
  timestamp_us : Nat
deriving DecidableEq

/-- Field-range validity of a gs_host_config value. -/
abbrev gs_host_config.Valid (r : gs_host_config) : Prop := r.byte_order < 4294967296

/-- Field-range validity of a gs_device_config value. -/
abbrev gs_device_config.Valid (r : gs_device_config) : Prop :=
  r.reserved1 < 256 ∧ r.reserved2 < 256 ∧ r.reserved3 < 256 ∧ r.icount < 256 ∧
  r.sw_version < 4294967296 ∧ r.hw_version < 4294967296

/-- Field-range validity of a gs_identify_mode value. -/
abbrev gs_identify_mode.Valid (r : gs_identify_mode) : Prop := r.mode < 4294967296

/-- Field-range validity of a gs_device_bt_const value. -/
abbrev gs_device_bt_const.Valid (r : gs_device_bt_const) : Prop :=
  r.feature < 4294967296 ∧ r.fclk_can < 4294967296 ∧ r.tseg1_min < 4294967296 ∧
  r.tseg1_max < 4294967296 ∧ r.tseg2_min < 4294967296 ∧ r.tseg2_max < 4294967296 ∧
  r.sjw_max < 4294967296 ∧ r.brp_min < 4294967296 ∧ r.brp_max < 4294967296 ∧
  r.brp_inc < 4294967296

/-- Field-range validity of a gs_device_bittiming value. -/
abbrev gs_device_bittiming.Valid (r : gs_device_bittiming) : Prop :=
  r.prop_seg < 4294967296 ∧ r.phase_seg1 < 4294967296 ∧ r.phase_seg2 < 4294967296 ∧
  r.sjw < 4294967296 ∧ r.brp < 4294967296

/-- Field-range validity of a gs_device_mode value. -/
abbrev gs_device_mode.Valid (r : gs_device_mode) : Prop :=
  r.mode < 4294967296 ∧ r.flags < 4294967296

/-- Field-range validity of a gs_host_frame value: all scalar fields in range
and exactly 8 stored data bytes, as in the C struct's uint8_t data[8]. -/
abbrev gs_host_frame.Valid (f : gs_host_frame) : Prop :=
  f.echo_id < 4294967296 ∧ f.can_id < 4294967296 ∧ f.can_dlc < 256 ∧
  f.channel < 256 ∧ f.flags < 256 ∧ f.reserved < 256 ∧
  f.data.length = 8 ∧ (∀ x ∈ f.data, x < 256) ∧ f.timestamp_us < 4294967296

/-- Wire image of gs_host_config. -/
def encode_host_config (r : gs_host_config) : List Nat := u32le r.byte_order

/-- Wire image of gs_device_config. -/
def encode_device_config (r : gs_device_config) : List Nat :=
  [r.reserved1, r.reserved2, r.reserved3, r.icount] ++ u32le r.sw_version ++ u32le r.hw_version

/-- Wire image of gs_identify_mode. -/
def encode_identify_mode (r : gs_identify_mode) : List Nat := u32le r.mode

/-- Wire image of gs_device_bt_const. -/
def encode_bt_const (r : gs_device_bt_const) : List Nat :=
  u32le r.feature ++ u32le r.fclk_can ++ u32le r.tseg1_min ++ u32le r.tseg1_max ++
  u32le r.tseg2_min ++ u32le r.tseg2_max ++ u32le r.sjw_max ++ u32le r.brp_min ++
  u32le r.brp_max ++ u32le r.brp_inc

/-- Wire image of gs_device_bittiming. -/
def encode_bittiming (r : gs_device_bittiming) : List Nat :=
  u32le r.prop_seg ++ u32le r.phase_seg1 ++ u32le r.phase_seg2 ++ u32le r.sjw ++ u32le r.brp

/-- Wire image of gs_device_mode. -/
def encode_device_mode (r : gs_device_mode) : List Nat := u32le r.mode ++ u32le r.flags

/-- Wire image of gs_host_frame (24 bytes when the data field holds 8 bytes). -/
def encode_frame (f : gs_host_frame) : List Nat :=
  u32le f.echo_id ++ u32le f.can_id ++ [f.can_dlc, f.channel, f.flags, f.reserved] ++
  f.data ++ u32le f.timestamp_us

/-- Decoder for gs_host_config; per the codec contract it demands the exact
record size. -/
def decode_host_config (b : List Nat) : Option gs_host_config :=
  if b.length = 4 then some ⟨de32at b 0⟩ else none

/-- Decoder for gs_device_config (exact size 12). -/
def decode_device_config (b : List Nat) : Option gs_device_config :=
  if b.length = 12 then some ⟨nth b 0, nth b 1, nth b 2, nth b 3, de32at b 4, de32at b 8⟩
  else none

/-- Decoder for gs_identify_mode (exact size 4). -/
def decode_identify_mode (b : List Nat) : Option gs_identify_mode :=
  if b.length = 4 then some ⟨de32at b 0⟩ else none

/-- Decoder for gs_device_bt_const (exact size 40). -/
def decode_bt_const (b : List Nat) : Option gs_device_bt_const :=
  if b.length = 40 then
    some ⟨de32at b 0, de32at b 4, de32at b 8, de32at b 12, de32at b 16, de32at b 20,
          de32at b 24, de32at b 28, de32at b 32, de32at b 36⟩
  else none

/-- Decoder for gs_device_bittiming (exact size 20). -/
def decode_bittiming (b : List Nat) : Option gs_device_bittiming :=
  if b.length = 20 then
    some ⟨de32at b 0, de32at b 4, de32at b 8, de32at b 12, de32at b 16⟩
  else none

/-- Decoder for gs_device_mode (exact size 8). -/
def decode_device_mode (b : List Nat) : Option gs_device_mode :=
  if b.length = 8 then some ⟨de32at b 0, de32at b 4⟩ else none

/-- View a 24-byte buffer as a gs_host_frame, mirroring the C read of the
packed struct fields from a memcpy target. -/
def frame_of_bytes (b : List Nat) : gs_host_frame :=
  ⟨de32at b 0, de32at b 4, nth b 8, nth b 9, nth b 10, nth b 11,
   (b.drop 12).take 8, de32at b 20⟩

/-- Decoder for gs_host_frame (exact size 24). -/
def decode_frame (b : List Nat) : Option gs_host_frame :=
  if b.length = 24 then some (frame_of_bytes b) else none

/-- Zero-extend or truncate a transferred byte sequence to the 24-byte struct
size, mirroring memcpy of the transferred bytes into a zero-initialized
gs_host_frame. -/
def pad24 (b : List Nat) : List Nat := (b ++ List.replicate 24 0).take 24

/-! Session state and transport model. -/

/-- Result of one bulk-IN attempt as seen by data_in: a libusb error code, or
a successfully transferred byte sequence. -/
inductive RxResult where
  | err (code : Int)
  | ok (bytes : List Nat)
deriving DecidableEq

/-- Observable state of the library: the global handles of usb_can_lib.c plus
an explicit transport (pending bulk-IN results, bulk-OUT and control-OUT
traces) and a counter of libusb_close calls. -/
structure LibState where
  handleOpen : Bool
  ctxOpen : Bool
  initialized : Bool
  started : Bool
  btConst : gs_device_bt_const
  rx : List RxResult
  tx : List (List Nat)
  ctrl : List (Nat × List Nat)
  closes : Nat
deriving DecidableEq

/-- Control request code for the host-format register. -/
def GS_USB_BREQ_HOST_FORMAT : Nat := 0

/-- Control request code for the bit-timing register. -/
def GS_USB_BREQ_BITTIMING : Nat := 1

/-- Control request code for the mode register. -/
def GS_USB_BREQ_MODE : Nat := 2

/-- Control request code for the bit-timing-constant register. -/
def GS_USB_BREQ_BT_CONST : Nat := 4

/-- Control request code for the identify register. -/
def GS_USB_BREQ_IDENTIFY : Nat := 7

/-- Vendor control-OUT transfer; records the write and reports the full size
transferred (the claims under study do not involve control failures). -/
def control_out (s : LibState) (req : Nat) (bytes : List Nat) : Int × LibState :=
  (Int.ofNat bytes.length, { s with ctrl := s.ctrl ++ [(req, bytes)] })

/-- Bulk-OUT transfer on endpoint 0x02; records the payload and reports the
full size transferred. -/
def data_out (s : LibState) (bytes : List Nat) : Int × LibState :=
  (Int.ofNat bytes.length, { s with tx := s.tx ++ [bytes] })

/-- Bulk-IN transfer on endpoint 0x81: consumes the next queued result and
returns (libusb return code, transferred bytes); an exhausted queue behaves as
a timeout (LIBUSB_ERROR_TIMEOUT = -7). -/
def data_in (s : LibState) : Int × List Nat × LibState :=
  match s.rx with
  | [] => (-7, [], s)
  | RxResult.err c :: rest => (c, [], { s with rx := rest })
  | RxResult.ok bytes :: rest => (Int.ofNat bytes.length, bytes, { s with rx := rest })

/-- Model of usb_can_cleanup: close the device handle if present, tear down the
context if present, clear the initialized flag.  The closes counter counts
libusb_close invocations. -/
def usb_can_cleanup (s : LibState) : LibState :=
  let s1 := if s.handleOpen then { s with handleOpen := false, closes := s.closes + 1 } else s
  let s2 := if s1.ctxOpen then { s1 with ctxOpen := false } else s1
  { s2 with initialized := false }

/-- Model of usb_can_set_bitrate: fail with -1 when no handle is open,
otherwise read the bit-timing constants (modelled as the device characteristic
stored in the state) and write the fixed-policy bit-timing register.  The
uint32 multiplication bitrate*16 wraps modulo 2^32 as in C. -/
def usb_can_set_bitrate (s : LibState) (bitrate : Nat) : Int × LibState :=
  if s.handleOpen = false then (-1, s)
  else
    control_out s GS_USB_BREQ_BITTIMING
      (encode_bittiming ⟨0, 13, 2, 1, s.btConst.fclk_can / (bitrate * 16 % 4294967296)⟩)

/-- Model of usb_can_start: mode = START with the hardware-timestamp flag
(bit 4) always set and the loopback flag (bit 1) conditionally.  The ghost
started flag records the commanded state. -/
def usb_can_start (s : LibState) (enable_loopback : Bool) : Int × LibState :=
  if s.handleOpen = false then (-1, s)
  else
    let r := control_out s GS_USB_BREQ_MODE
      (encode_device_mode ⟨1, 16 + (if enable_loopback then 2 else 0)⟩)
    (r.1, { r.2 with started := true })

/-- Model of usb_can_stop: mode = RESET with zero flags. -/
def usb_can_stop (s : LibState) : Int × LibState :=
  if s.handleOpen = false then (-1, s)
  else
    let r := control_out s GS_USB_BREQ_MODE (encode_device_mode ⟨0, 0⟩)
    (r.1, { r.2 with started := false })

/-- Model of usb_can_send_frame.  The C data pointer is an Option (none = NULL)
and the separate length argument is the list length, as every caller passes.
Rejects with -1 on missing handle, NULL data or length > 8; otherwise sends the
zero-initialized frame with can_id, dlc and the copied data bytes. -/
def usb_can_send_frame (s : LibState) (can_id : Nat) (dataPtr : Option (List Nat)) :
    Int × LibState :=
  match dataPtr with
  | none => (-1, s)
  | some d =>
    if s.handleOpen = false ∨ 8 < d.length then (-1, s)
    else
      data_out s
        (encode_frame ⟨0, can_id, d.length, 0, 0, 0, (d ++ List.replicate 8 0).take 8, 0⟩)

/-- Model of usb_can_receive_frame: one bulk-IN into a zero-initialized frame
struct; a negative transfer result propagates, otherwise the outputs are
(can_id, can_dlc, first can_dlc data bytes, timestamp).  The C memcpy of
can_dlc bytes reads past the 8-byte data array when can_dlc > 8 (undefined
behavior); the model returns the defined prefix, clamped at the 8 stored
bytes, while the can_dlc output is returned unclamped exactly as the C does. -/
def usb_can_receive_frame (s : LibState) : Except Int (Nat × Nat × List Nat × Nat) × LibState :=
  if s.handleOpen = false then (Except.error (-1), s)
  else
    let r := data_in s
    if r.1 < 0 then (Except.error r.1, r.2.2)
    else
      let f := frame_of_bytes (pad24 r.2.1)
      (Except.ok (f.can_id, f.can_dlc, f.data.take f.can_dlc, f.timestamp_us), r.2.2)

/-- Loop body of usb_can_purge_rx_queue: count bulk-IN attempts until the first
negative return code; an exhausted queue times out and stops the loop. -/
def purge_loop : List RxResult → Nat
  | [] => 0
  | RxResult.ok _ :: rest => 1 + purge_loop rest
  | RxResult.err c :: rest => if 0 ≤ c then 1 + purge_loop rest else 0

/-- Model of usb_can_purge_rx_queue: -1 without a handle, otherwise the count
of successfully received-and-discarded frames, consuming the counted events
plus the terminating failed attempt. -/
def usb_can_purge_rx_queue (s : LibState) : Int × LibState :=
  if s.handleOpen = false then (-1, s)
  else (Int.ofNat (purge_loop s.rx), { s with rx := s.rx.drop (purge_loop s.rx + 1) })

/-- Model of usb_can_read_obd_pid: send the OBD request frame on 0x7DF, receive
and discard the echo, receive the candidate response, and validate it.  The C
output pointers become an Except result: an error carries no payload, matching
the C code writing its outputs only in the success branch. -/
def usb_can_read_obd_pid (s : LibState) (pid : Nat) : Except Int (List Nat) × LibState :=
  if s.handleOpen = false then (Except.error (-1), s)
  else
    let r1 := usb_can_send_frame s 0x7DF (some [2, 1, pid, 0x55, 0x55, 0x55, 0x55, 0x55])
    if r1.1 < 0 then (Except.error r1.1, r1.2)
    else
      match usb_can_receive_frame r1.2 with
      | (Except.error e, s2) => (Except.error e, s2)
      | (Except.ok _, s2) =>
        match usb_can_receive_frame s2 with
        | (Except.error e, s3) => (Except.error e, s3)
        | (Except.ok (_, len, d, _), s3) =>
          if 3 ≤ len ∧ nth d 1 = 0x41 ∧ nth d 2 = pid
          then (Except.ok ((d.drop 3).take (len - 3)), s3)
          else (Except.error (-1), s3)

/-! The OBD-II decoder layer of the C# wrapper (UsbCanDevice.cs), modelled as
pure functions of the ReadObdPid outcome (none = null). -/

/-- Model of GetEngineRpm applied to a ReadObdPid result: requires at least two
response bytes and computes (byte0*256 + byte1) / 4, else the sentinel -1.  The
C# float arithmetic is exact here (an integer below 2^16 divided by 4), so the
value is modelled in the rationals. -/
def GetEngineRpm (r : Option (List Nat)) : ℚ :=
  match r with
  | some d => if 2 ≤ d.length then ((nth d 0 * 256 + nth d 1 : ℕ) : ℚ) / 4 else -1
  | none => -1

/-- Bit positions set in a 4-byte supported-PID response, MSB-first within each
byte: bit i is data[i / 8] masked with 0x80 right-shifted by (i and 7). -/
def supported_bits (d : List Nat) : List Nat :=
  (List.range 32).filter (fun i => (nth d (i / 8) &&& (128 >>> (i &&& 7))) != 0)

/-- Model of GetSupportedPids over an oracle giving each base PID query's
ReadObdPid outcome: for baseId = 0, 32, 64 (the C# loop runs while
baseId < 96), a response of at least 4 bytes contributes base+i for each set
bit i. -/
def GetSupportedPids (readPid : Nat → Option (List Nat)) : List Nat :=
  ((List.range 3).map (fun k => 32 * k)).flatMap (fun base =>
    match readPid base with
    | some d => if 4 ≤ d.length then (supported_bits d).map (fun i => base + i) else []
    | none => [])

/-- Device bit-timing constraints of a typical candleLight adapter, used for
concrete evaluations: 48 MHz core clock, brp range 1..1024. -/
def btc48 : gs_device_bt_const := ⟨0, 48000000, 1, 16, 1, 8, 4, 1, 1024, 1⟩

/-- Freshly opened-and-configured session with a given pending receive queue. -/
def openState (rx : List RxResult) : LibState :=
  ⟨true, true, true, false, btc48, rx, [], [], 0⟩

/-- Boolean test used to count the leading successful receive attempts. -/
def rx_is_ok : RxResult → Bool
  | RxResult.ok _ => true
  | RxResult.err _ => false

/-! Helper lemmas. -/

theorem land_seven_eq_mod (i : Nat) : i &&& 7 = i % 8 := by
  have h := Nat.and_pow_two_sub_one_eq_mod i 3
  norm_num at h
  exact h

theorem de32_u32le (x : Nat) (h : x < 4294967296) :
    de32 (x % 256) (x / 256 % 256) (x / 65536 % 256) (x / 16777216 % 256) = x := by
  unfold de32; omega

theorem exists_eight (l : List Nat) (h : l.length = 8) :
    ∃ b0 b1 b2 b3 b4 b5 b6 b7, l = [b0, b1, b2, b3, b4, b5, b6, b7] := by
  match l, h with
  | [b0, b1, b2, b3, b4, b5, b6, b7], _ => exact ⟨b0, b1, b2, b3, b4, b5, b6, b7, rfl⟩

theorem nth_take (l : List Nat) (n i : Nat) (h : i < n) : nth (l.take n) i = nth l i := by
  induction l generalizing n i with
  | nil => simp
  | cons a t ih =>
    cases n with
    | zero => omega
    | succ m =>
      cases i with
      | zero => simp [nth]
      | succ j => simpa [nth] using ih m j (by omega)

theorem encode_frame_length (f : gs_host_frame) (h : f.data.length = 8) :
    (encode_frame f).length = 24 := by
  simp [encode_frame, u32le, h]

theorem pad24_eq (b : List Nat) (h : b.length = 24) : pad24 b = b := by
  unfold pad24
  rw [← h, List.take_left]

theorem frame_of_bytes_encode (f : gs_host_frame) (hv : f.Valid) :
    frame_of_bytes (encode_frame f) = f := by
  obtain ⟨e, c, dlc, ch, fl, rs, data, ts⟩ := f
  obtain ⟨h1, h2, h3, h4, h5, h6, h7, h8, h9⟩ := hv
  obtain ⟨b0, b1, b2, b3, b4, b5, b6, b7, rfl⟩ := exists_eight data h7
  simp only [encode_frame, u32le, List.cons_append, List.nil_append]
  simp only [frame_of_bytes, de32at, nth, gs_host_frame.mk.injEq]
  exact ⟨de32_u32le e h1, de32_u32le c h2, trivial, trivial, trivial, trivial, rfl,
    de32_u32le ts h9⟩

theorem receive_frame_ok_bytes (s : LibState) (bytes : List Nat) (rest : List RxResult)
    (ho : s.handleOpen = true) (hrx : s.rx = RxResult.ok bytes :: rest) :
    usb_can_receive_frame s =
      (Except.ok ((frame_of_bytes (pad24 bytes)).can_id, (frame_of_bytes (pad24 bytes)).can_dlc,
        (frame_of_bytes (pad24 bytes)).data.take (frame_of_bytes (pad24 bytes)).can_dlc,
        (frame_of_bytes (pad24 bytes)).timestamp_us), { s with rx := rest }) := by
  simp [usb_can_receive_frame, ho, data_in, hrx]

theorem receive_frame_encoded (s : LibState) (f : gs_host_frame) (rest : List RxResult)
    (ho : s.handleOpen = true) (hrx : s.rx = RxResult.ok (encode_frame f) :: rest)
    (hv : f.Valid) :
    usb_can_receive_frame s =
      (Except.ok (f.can_id, f.can_dlc, f.data.take f.can_dlc, f.timestamp_us),
        { s with rx := rest }) := by
  rw [receive_frame_ok_bytes s (encode_frame f) rest ho hrx,
      pad24_eq _ (encode_frame_length f hv.2.2.2.2.2.2.1), frame_of_bytes_encode f hv]

theorem rt_host_config (r : gs_host_config) (hv : r.Valid) :
    decode_host_config (encode_host_config r) = some r := by
  obtain ⟨a⟩ := r
  simp only [encode_host_config, u32le, decode_host_config, List.length_cons, List.length_nil,
    de32at, nth]
  norm_num
  exact de32_u32le a hv

theorem rt_device_config (r : gs_device_config) (hv : r.Valid) :
    decode_device_config (encode_device_config r) = some r := by
  obtain ⟨a, b, c, d, e, f⟩ := r
  obtain ⟨h1, h2, h3, h4, h5, h6⟩ := hv
  simp only [encode_device_config, u32le, List.cons_append, List.nil_append,
    decode_device_config, List.length_cons, List.length_nil, de32at, nth]
  norm_num
  exact ⟨de32_u32le e h5, de32_u32le f h6⟩

theorem rt_identify_mode (r : gs_identify_mode) (hv : r.Valid) :
    decode_identify_mode (encode_identify_mode r) = some r := by
  obtain ⟨a⟩ := r
  simp only [encode_identify_mode, u32le, decode_identify_mode, List.length_cons,
    List.length_nil, de32at, nth]
  norm_num
  exact de32_u32le a hv

set_option maxHeartbeats 2000000 in
theorem rt_bt_const (r : gs_device_bt_const) (hv : r.Valid) :
    decode_bt_const (encode_bt_const r) = some r := by
  obtain ⟨a, b, c, d, e, f, g, h, i, j⟩ := r
  obtain ⟨h1, h2, h3, h4, h5, h6, h7, h8, h9, h10⟩ := hv
  simp only [encode_bt_const, u32le, List.cons_append, List.nil_append,
    decode_bt_const, List.length_cons, List.length_nil, de32at, nth]
  norm_num
  exact ⟨de32_u32le a h1, de32_u32le b h2, de32_u32le c h3, de32_u32le d h4, de32_u32le e h5,
    de32_u32le f h6, de32_u32le g h7, de32_u32le h h8, de32_u32le i h9, de32_u32le j h10⟩

theorem rt_bittiming (r : gs_device_bittiming) (hv : r.Valid) :
    decode_bittiming (encode_bittiming r) = some r := by
  obtain ⟨a, b, c, d, e⟩ := r
  obtain ⟨h1, h2, h3, h4, h5⟩ := hv
  simp only [encode_bittiming, u32le, List.cons_append, List.nil_append,
    decode_bittiming, List.length_cons, List.length_nil, de32at, nth]
  norm_num
  exact ⟨de32_u32le a h1, de32_u32le b h2, de32_u32le c h3, de32_u32le d h4, de32_u32le e h5⟩

theorem rt_device_mode (r : gs_device_mode) (hv : r.Valid) :
    decode_device_mode (encode_device_mode r) = some r := by
  obtain ⟨a, b⟩ := r
  obtain ⟨h1, h2⟩ := hv
  simp only [encode_device_mode, u32le, List.cons_append, List.nil_append,
    decode_device_mode, List.length_cons, List.length_nil, de32at, nth]
  norm_num
  exact ⟨de32_u32le a h1, de32_u32le b h2⟩

theorem rt_frame (f : gs_host_frame) (hv : f.Valid) :
    decode_frame (encode_frame f) = some f := by
  rw [decode_frame, if_pos (encode_frame_length f hv.2.2.2.2.2.2.1),
    frame_of_bytes_encode f hv]

theorem send_frame_ok (s : LibState) (cid : Nat) (d : List Nat) (ho : s.handleOpen = true)
    (hd : d.length ≤ 8) :
    usb_can_send_frame s cid (some d) =
      (24, { s with tx := s.tx ++ [encode_frame ⟨0, cid, d.length, 0, 0, 0,
        (d ++ List.replicate 8 0).take 8, 0⟩] }) := by
  have hl : ((d ++ List.replicate 8 0).take 8).length = 8 := by
    simp [List.length_take]
  have h24 : (encode_frame ⟨0, cid, d.length, 0, 0, 0,
      (d ++ [0, 0, 0, 0, 0, 0, 0, 0]).take 8, 0⟩).length = 24 :=
    encode_frame_length _ (by simpa using hl)
  simp [usb_can_send_frame, ho, data_out, Nat.not_lt.mpr hd, h24]

theorem purge_loop_eq_takeWhile (l : List RxResult) (h : ∀ c, RxResult.err c ∈ l → c < 0) :
    purge_loop l = (l.takeWhile rx_is_ok).length := by
  induction l with
  | nil => rfl
  | cons a t ih =>
    cases a with
    | ok b =>
      have := ih (fun c hc => h c (List.mem_cons_of_mem _ hc))
      simp [purge_loop, List.takeWhile, rx_is_ok, this]
      omega
    | err c =>
      have hc : c < 0 := h c (List.mem_cons_self _ _)
      simp [purge_loop, List.takeWhile, rx_is_ok, if_neg (by omega : ¬ 0 ≤ c)]

/-! Claim theorems. -/

/-- Claim C1: for every pid, usb_can_read_obd_pid sends exactly one 8-byte CAN
frame with identifier 0x7DF and payload 02 01 pid 55 55 55 55 55, discards the
first received frame unconditionally as the local echo, and succeeds on the
second received frame if and only if that frame's payload length is at least 3,
its byte 1 is 0x41 and its byte 2 is the pid, in which case it returns the
payload bytes from index 3 to the end (length = frame length - 3); on any
mismatch it fails with -1 and no output is produced. -/
theorem obd_query_protocol (s : LibState) (pid : Nat) (echo : List Nat) (resp : gs_host_frame)
    (ho : s.handleOpen = true) (hpid : pid < 256)
    (hrx : s.rx = [RxResult.ok echo, RxResult.ok (encode_frame resp)])
    (hv : resp.Valid) (hdlc : resp.can_dlc ≤ 8) :
    (usb_can_read_obd_pid s pid).2.tx =
      s.tx ++ [encode_frame ⟨0, 0x7DF, 8, 0, 0, 0, [2, 1, pid, 85, 85, 85, 85, 85], 0⟩] ∧
    ((usb_can_read_obd_pid s pid).1 = Except.ok ((resp.data.take resp.can_dlc).drop 3) ↔
      3 ≤ resp.can_dlc ∧ nth resp.data 1 = 65 ∧ nth resp.data 2 = pid) ∧
    (¬ (3 ≤ resp.can_dlc ∧ nth resp.data 1 = 65 ∧ nth resp.data 2 = pid) →
      (usb_can_read_obd_pid s pid).1 = Except.error (-1)) := by
  have hlen8 : resp.data.length = 8 := hv.2.2.2.2.2.2.1
  have hsend : usb_can_send_frame s 0x7DF (some [2, 1, pid, 85, 85, 85, 85, 85]) =
      (24, { s with tx := s.tx ++ [encode_frame ⟨0, 0x7DF, 8, 0, 0, 0,
        [2, 1, pid, 85, 85, 85, 85, 85], 0⟩] }) :=
    send_frame_ok s 0x7DF [2, 1, pid, 85, 85, 85, 85, 85] ho (by simp)
  have hrecv1 := receive_frame_ok_bytes
    { s with tx := s.tx ++ [encode_frame ⟨0, 0x7DF, 8, 0, 0, 0,
      [2, 1, pid, 85, 85, 85, 85, 85], 0⟩] }
    echo [RxResult.ok (encode_frame resp)] ho hrx
  have hrecv2 := receive_frame_encoded
    { { s with tx := s.tx ++ [encode_frame ⟨0, 0x7DF, 8, 0, 0, 0,
        [2, 1, pid, 85, 85, 85, 85, 85], 0⟩] } with rx := [RxResult.ok (encode_frame resp)] }
    resp [] ho rfl hv
  have hcc : (3 ≤ resp.can_dlc ∧ nth (resp.data.take resp.can_dlc) 1 = 65 ∧
      nth (resp.data.take resp.can_dlc) 2 = pid) ↔
      (3 ≤ resp.can_dlc ∧ nth resp.data 1 = 65 ∧ nth resp.data 2 = pid) := by
    constructor
    · rintro ⟨h3, ha, hb⟩
      rw [nth_take _ _ _ (by omega)] at ha
      rw [nth_take _ _ _ (by omega)] at hb
      exact ⟨h3, ha, hb⟩
    · rintro ⟨h3, ha, hb⟩
      refine ⟨h3, ?_, ?_⟩
      · rw [nth_take _ _ _ (by omega)]; exact ha
      · rw [nth_take _ _ _ (by omega)]; exact hb
  have hdrop : ((resp.data.take resp.can_dlc).drop 3).take (resp.can_dlc - 3) =
      (resp.data.take resp.can_dlc).drop 3 := by
    apply List.take_of_length_le
    simp [List.length_take, hlen8]
    omega
  have hno : ¬ (s.handleOpen = false) := by simp [ho]
  unfold usb_can_read_obd_pid
  rw [if_neg hno]
  simp only [hsend]
  rw [if_neg (by norm_num : ¬ ((24 : Int) < 0))]
  rw [hrecv1]
  dsimp only
  rw [hrecv2]
  dsimp only
  by_cases hc : (3 ≤ resp.can_dlc ∧ nth (resp.data.take resp.can_dlc) 1 = 65 ∧
      nth (resp.data.take resp.can_dlc) 2 = pid)
  · have hclaim := hcc.mp hc
    simp [hc, hdrop, hclaim.1, hclaim.2.1, hclaim.2.2]
  · have hc' : ¬ (3 ≤ resp.can_dlc ∧ nth resp.data 1 = 65 ∧ nth resp.data 2 = pid) :=
      fun h => hc (hcc.mpr h)
    simp [hc, hc']

/-- Claim C1 witness: the concrete PID 0x0C exchange with an echo and a full
8-byte positive response. -/
theorem obd_query_protocol_witness :
    ((usb_can_read_obd_pid (openState
        [RxResult.ok (encode_frame ⟨0, 2015, 8, 0, 0, 0, [2, 1, 12, 85, 85, 85, 85, 85], 0⟩),
         RxResult.ok (encode_frame ⟨0, 2024, 8, 0, 0, 0, [4, 65, 12, 26, 248, 0, 0, 0], 0⟩)])
        12).2.tx =
      (openState
        [RxResult.ok (encode_frame ⟨0, 2015, 8, 0, 0, 0, [2, 1, 12, 85, 85, 85, 85, 85], 0⟩),
         RxResult.ok (encode_frame ⟨0, 2024, 8, 0, 0, 0, [4, 65, 12, 26, 248, 0, 0, 0], 0⟩)]).tx
        ++ [encode_frame ⟨0, 0x7DF, 8, 0, 0, 0, [2, 1, 12, 85, 85, 85, 85, 85], 0⟩]) ∧
    ((usb_can_read_obd_pid (openState
        [RxResult.ok (encode_frame ⟨0, 2015, 8, 0, 0, 0, [2, 1, 12, 85, 85, 85, 85, 85], 0⟩),
         RxResult.ok (encode_frame ⟨0, 2024, 8, 0, 0, 0, [4, 65, 12, 26, 248, 0, 0, 0], 0⟩)])
        12).1 =
      Except.ok ((([4, 65, 12, 26, 248, 0, 0, 0] : List Nat).take 8).drop 3) ↔
      3 ≤ 8 ∧ nth [4, 65, 12, 26, 248, 0, 0, 0] 1 = 65 ∧
        nth [4, 65, 12, 26, 248, 0, 0, 0] 2 = 12) := by
  have h := obd_query_protocol
    (openState
      [RxResult.ok (encode_frame ⟨0, 2015, 8, 0, 0, 0, [2, 1, 12, 85, 85, 85, 85, 85], 0⟩),
       RxResult.ok (encode_frame ⟨0, 2024, 8, 0, 0, 0, [4, 65, 12, 26, 248, 0, 0, 0], 0⟩)])
    12 (encode_frame ⟨0, 2015, 8, 0, 0, 0, [2, 1, 12, 85, 85, 85, 85, 85], 0⟩)
    ⟨0, 2024, 8, 0, 0, 0, [4, 65, 12, 26, 248, 0, 0, 0], 0⟩
    rfl (by decide) rfl (by decide) (by decide)
  exact ⟨h.1, h.2.1⟩

/-- Claim C2: for every bitrate > 0 whose prescaler computation does not wrap
(bitrate * 16 < 2^32), usb_can_set_bitrate on an open handle writes the
bit-timing register with prop_seg = 0, phase_seg1 = 13, phase_seg2 = 2,
sjw = 1 and brp = fclk_can / (bitrate * 16) in truncating integer division,
and in particular a 48 MHz clock at bitrate 500000 yields brp = 6. -/
theorem set_bitrate_fixed_policy (s : LibState) (bitrate : Nat) (ho : s.handleOpen = true)
    (h0 : 0 < bitrate) (hrep : bitrate * 16 < 4294967296) :
    usb_can_set_bitrate s bitrate =
      (20, { s with ctrl := s.ctrl ++ [(GS_USB_BREQ_BITTIMING,
        encode_bittiming ⟨0, 13, 2, 1, s.btConst.fclk_can / (bitrate * 16)⟩)] }) ∧
    (usb_can_set_bitrate (openState []) 500000).2.ctrl =
      [(GS_USB_BREQ_BITTIMING, encode_bittiming ⟨0, 13, 2, 1, 6⟩)] := by
  constructor
  · simp [usb_can_set_bitrate, ho, control_out, Nat.mod_eq_of_lt hrep, encode_bittiming, u32le]
  · rfl

/-- Claim C2 witness at the concrete 48 MHz / 500 kbit configuration. -/
theorem set_bitrate_fixed_policy_witness :
    usb_can_set_bitrate (openState []) 500000 =
      (20, { openState [] with ctrl := [(GS_USB_BREQ_BITTIMING,
        encode_bittiming ⟨0, 13, 2, 1, (openState []).btConst.fclk_can / (500000 * 16)⟩)] }) ∧
    (usb_can_set_bitrate (openState []) 500000).2.ctrl =
      [(GS_USB_BREQ_BITTIMING, encode_bittiming ⟨0, 13, 2, 1, 6⟩)] := by
  have h := set_bitrate_fixed_policy (openState []) 500000 rfl (by decide) (by decide)
  simpa using h

/-- Claim C3 (code bug evidence): with device constraints brp_min = 1,
brp_max = 1024, bitrate 1 computes brp = 3000000, far outside the constraint
range, yet usb_can_set_bitrate transmits the bit-timing register and reports
success (20 bytes) instead of failing with BitrateUnsupported; no validation of
the prescaler against the constraints occurs anywhere. -/
theorem set_bitrate_unvalidated_write :
    usb_can_set_bitrate (openState []) 1 =
      (20, { openState [] with ctrl := [(GS_USB_BREQ_BITTIMING,
        encode_bittiming ⟨0, 13, 2, 1, 3000000⟩)] }) ∧
    (openState []).btConst.brp_max = 1024 ∧ (1024 : Nat) < 3000000 := by
  refine ⟨rfl, rfl, by decide⟩

/-- Claim C4 counterexample: in the Running state (ghost started = true, handle
open) usb_can_set_bitrate succeeds with return 20 rather than failing with
InvalidState, and in the Configured state (started = false) usb_can_send_frame
succeeds with return 24 rather than failing for want of the Running state. -/
theorem state_machine_unenforced_cex :
    (usb_can_set_bitrate ⟨true, true, true, true, btc48, [], [], [], 0⟩ 500000).1 = 20 ∧
    ¬ (usb_can_set_bitrate ⟨true, true, true, true, btc48, [], [], [], 0⟩ 500000).1 < 0 ∧
    (usb_can_send_frame (openState []) 0x123 (some [1])).1 = 24 ∧
    ¬ (usb_can_send_frame (openState []) 0x123 (some [1])).1 < 0 := by
  refine ⟨rfl, by decide, rfl, by decide⟩

/-- Claim C4 as amended: send_frame, receive_frame and set_bitrate fail (-1)
exactly for want of an open device handle and never consult the running state
(their results are identical for started = true and started = false), and stop
with an open handle always succeeds — in particular from Configured, where it
is a no-op state-wise. -/
theorem session_state_guards (s : LibState) (cid br : Nat) (d : List Nat)
    (hd : d.length ≤ 8) :
    (usb_can_set_bitrate { s with started := true } br).1 =
      (usb_can_set_bitrate { s with started := false } br).1 ∧
    (usb_can_send_frame { s with started := true } cid (some d)).1 =
      (usb_can_send_frame { s with started := false } cid (some d)).1 ∧
    (usb_can_receive_frame { s with started := true }).1 =
      (usb_can_receive_frame { s with started := false }).1 ∧
    (s.handleOpen = false →
      (usb_can_send_frame s cid (some d)).1 = -1 ∧
      (usb_can_receive_frame s).1 = Except.error (-1) ∧
      (usb_can_set_bitrate s br).1 = -1 ∧ (usb_can_stop s).1 = -1) ∧
    (s.handleOpen = true →
      (usb_can_stop s).1 = 8 ∧ 0 ≤ (usb_can_set_bitrate s br).1 ∧
      (usb_can_send_frame s cid (some d)).1 = 24) := by
  refine ⟨?_, ?_, ?_, ?_, ?_⟩
  · by_cases h : s.handleOpen <;> simp [usb_can_set_bitrate, control_out, h]
  · by_cases h : s.handleOpen <;> by_cases h2 : 8 < d.length <;>
      simp [usb_can_send_frame, data_out, h, h2]
  · by_cases h : s.handleOpen
    · rcases hr : s.rx with _ | ⟨c | bytes, rest⟩
      · simp [usb_can_receive_frame, data_in, h, hr]
      · by_cases hc : c < 0 <;> simp [usb_can_receive_frame, data_in, h, hr, hc]
      · simp [usb_can_receive_frame, data_in, h, hr,
          Int.not_lt.mpr (Int.natCast_nonneg bytes.length)]
    · simp [usb_can_receive_frame, h]
  · intro h
    simp [usb_can_send_frame, usb_can_receive_frame, usb_can_set_bitrate, usb_can_stop, h]
  · intro h
    refine ⟨?_, ?_, ?_⟩
    · simp [usb_can_stop, h, control_out, encode_device_mode, u32le]
    · simp [usb_can_set_bitrate, h, control_out]
    · simp [usb_can_send_frame, h, data_out, encode_frame, u32le, hd,
        Nat.not_lt.mpr hd]

/-- Claim C4 witness: the amended guarantees evaluated on a closed and on an
open session. -/
theorem session_state_guards_witness :
    ((usb_can_send_frame ⟨false, false, false, false, btc48, [], [], [], 0⟩ 0 (some [1])).1 = -1 ∧
      (usb_can_receive_frame ⟨false, false, false, false, btc48, [], [], [], 0⟩).1 =
        Except.error (-1) ∧
      (usb_can_set_bitrate ⟨false, false, false, false, btc48, [], [], [], 0⟩ 500000).1 = -1 ∧
      (usb_can_stop ⟨false, false, false, false, btc48, [], [], [], 0⟩).1 = -1) ∧
    ((usb_can_stop (openState [])).1 = 8 ∧ 0 ≤ (usb_can_set_bitrate (openState []) 500000).1 ∧
      (usb_can_send_frame (openState []) 0 (some [1])).1 = 24) := by
  exact ⟨(session_state_guards ⟨false, false, false, false, btc48, [], [], [], 0⟩ 0 500000 [1]
      (by decide)).2.2.2.1 rfl,
    (session_state_guards (openState []) 0 500000 [1] (by decide)).2.2.2.2 rfl⟩

/-- Claim C6 (code bug evidence): usb_can_send_frame does reject NULL data and
lengths above 8 with -1, but usb_can_receive_frame propagates a device-reported
dlc of 9 unclamped: the returned length is 9 > 8, and the C memcpy of
frame.can_dlc bytes then reads past the 8-byte data array and writes past the
caller's 8-byte buffer. -/
theorem receive_frame_dlc_unclamped :
    (usb_can_receive_frame (openState [RxResult.ok
        (encode_frame ⟨0, 0x7E8, 9, 0, 0, 0, [1, 2, 3, 4, 5, 6, 7, 8], 0⟩)])).1 =
      Except.ok (0x7E8, 9, [1, 2, 3, 4, 5, 6, 7, 8], 0) ∧
    (usb_can_send_frame (openState []) 0 (some [1, 2, 3, 4, 5, 6, 7, 8, 9])).1 = -1 ∧
    (usb_can_send_frame (openState []) 0 none).1 = -1 ∧ 8 < 9 := by
  refine ⟨rfl, rfl, rfl, by decide⟩

/-- Claim C9: usb_can_cleanup is idempotent — a second invocation leaves the
state unchanged and performs no further libusb_close — and libusb_close runs
exactly once per opened handle and never without one. -/
theorem cleanup_idempotent (s : LibState) :
    usb_can_cleanup (usb_can_cleanup s) = usb_can_cleanup s ∧
    (usb_can_cleanup s).closes = s.closes + (if s.handleOpen then 1 else 0) := by
  unfold usb_can_cleanup
  by_cases h1 : s.handleOpen <;> by_cases h2 : s.ctxOpen <;> simp [h1, h2]

/-- Claim C10: with the handle open and the transport reporting failures as
negative codes, usb_can_purge_rx_queue returns a nonnegative value, namely the
count of leading successful receive attempts before the first failure. -/
theorem purge_rx_nonneg (s : LibState) (ho : s.handleOpen = true)
    (herr : ∀ c, RxResult.err c ∈ s.rx → c < 0) :
    0 ≤ (usb_can_purge_rx_queue s).1 ∧
    (usb_can_purge_rx_queue s).1 = Int.ofNat (s.rx.takeWhile rx_is_ok).length := by
  refine ⟨?_, ?_⟩
  · simp [usb_can_purge_rx_queue, ho]
  · simp [usb_can_purge_rx_queue, ho, purge_loop_eq_takeWhile s.rx herr]

/-- Claim C10 witness: a queue with one pending frame followed by a timeout
purges exactly one frame. -/
theorem purge_rx_nonneg_witness :
    0 ≤ (usb_can_purge_rx_queue (openState [RxResult.ok [], RxResult.err (-7)])).1 ∧
    (usb_can_purge_rx_queue (openState [RxResult.ok [], RxResult.err (-7)])).1 =
      Int.ofNat ((openState [RxResult.ok [], RxResult.err (-7)]).rx.takeWhile
        rx_is_ok).length := by
  exact purge_rx_nonneg (openState [RxResult.ok [], RxResult.err (-7)]) rfl
    (by intro c hc; simp [openState] at hc; omega)

/-- Claim C5 counterexample: a bulk-in transfer delivering only 3 of the 24
frame bytes is accepted by usb_can_receive_frame (it returns a decoded frame
over the zero-padded buffer) even though the frame codec's exact-size decoder
rejects the same 3-byte buffer. -/
theorem short_transfer_accepted_cex :
    (usb_can_receive_frame (openState [RxResult.ok [1, 2, 3]])).1 =
      Except.ok (0, 0, ([] : List Nat), 0) ∧
    decode_frame [1, 2, 3] = none := by
  exact ⟨rfl, rfl⟩

/-- Claim C5 as amended: every register and frame record round-trips through
its codec (decode after encode is the identity on valid field values), and
each decoder fails on every buffer whose length is not the record's exact
size; however usb_can_receive_frame itself accepts any successful bulk-in
transfer regardless of the transferred byte count, decoding the zero-padded
buffer, rather than rejecting short reads. -/
theorem codec_round_trip :
    (∀ r : gs_host_config, r.Valid → decode_host_config (encode_host_config r) = some r) ∧
    (∀ r : gs_device_config, r.Valid → decode_device_config (encode_device_config r) = some r) ∧
    (∀ r : gs_identify_mode, r.Valid → decode_identify_mode (encode_identify_mode r) = some r) ∧
    (∀ r : gs_device_bt_const, r.Valid → decode_bt_const (encode_bt_const r) = some r) ∧
    (∀ r : gs_device_bittiming, r.Valid → decode_bittiming (encode_bittiming r) = some r) ∧
    (∀ r : gs_device_mode, r.Valid → decode_device_mode (encode_device_mode r) = some r) ∧
    (∀ f : gs_host_frame, f.Valid → decode_frame (encode_frame f) = some f) ∧
    (∀ b : List Nat, b.length ≠ 4 → decode_host_config b = none) ∧
    (∀ b : List Nat, b.length ≠ 12 → decode_device_config b = none) ∧
    (∀ b : List Nat, b.length ≠ 4 → decode_identify_mode b = none) ∧
    (∀ b : List Nat, b.length ≠ 40 → decode_bt_const b = none) ∧
    (∀ b : List Nat, b.length ≠ 20 → decode_bittiming b = none) ∧
    (∀ b : List Nat, b.length ≠ 8 → decode_device_mode b = none) ∧
    (∀ b : List Nat, b.length ≠ 24 → decode_frame b = none) ∧
    (∀ (s : LibState) (bytes : List Nat) (rest : List RxResult),
      s.handleOpen = true → s.rx = RxResult.ok bytes :: rest →
      (usb_can_receive_frame s).1 =
        Except.ok ((frame_of_bytes (pad24 bytes)).can_id, (frame_of_bytes (pad24 bytes)).can_dlc,
          (frame_of_bytes (pad24 bytes)).data.take (frame_of_bytes (pad24 bytes)).can_dlc,
          (frame_of_bytes (pad24 bytes)).timestamp_us)) := by
  refine ⟨rt_host_config, rt_device_config, rt_identify_mode, rt_bt_const, rt_bittiming,
    rt_device_mode, rt_frame, ?_, ?_, ?_, ?_, ?_, ?_, ?_, ?_⟩
  · intro b h; simp [decode_host_config, h]
  · intro b h; simp [decode_device_config, h]
  · intro b h; simp [decode_identify_mode, h]
  · intro b h; simp [decode_bt_const, h]
  · intro b h; simp [decode_bittiming, h]
  · intro b h; simp [decode_device_mode, h]
  · intro b h; simp [decode_frame, h]
  · intro s bytes rest ho hrx
    rw [receive_frame_ok_bytes s bytes rest ho hrx]

/-- Claim C5 witness: concrete instances of every conjunct of the amended
round-trip statement. -/
theorem codec_round_trip_witness :
    decode_host_config (encode_host_config ⟨48879⟩) = some ⟨48879⟩ ∧
    decode_device_config (encode_device_config ⟨0, 0, 0, 1, 2, 3⟩) = some ⟨0, 0, 0, 1, 2, 3⟩ ∧
    decode_identify_mode (encode_identify_mode ⟨1⟩) = some ⟨1⟩ ∧
    decode_bt_const (encode_bt_const btc48) = some btc48 ∧
    decode_bittiming (encode_bittiming ⟨0, 13, 2, 1, 6⟩) = some ⟨0, 13, 2, 1, 6⟩ ∧
    decode_device_mode (encode_device_mode ⟨1, 16⟩) = some ⟨1, 16⟩ ∧
    decode_frame (encode_frame ⟨0, 2015, 8, 0, 0, 0, [2, 1, 12, 85, 85, 85, 85, 85], 0⟩) =
      some ⟨0, 2015, 8, 0, 0, 0, [2, 1, 12, 85, 85, 85, 85, 85], 0⟩ ∧
    decode_host_config [] = none ∧ decode_device_config [] = none ∧
    decode_identify_mode [] = none ∧ decode_bt_const [] = none ∧
    decode_bittiming [] = none ∧ decode_device_mode [] = none ∧ decode_frame [] = none ∧
    (usb_can_receive_frame (openState [RxResult.ok [1, 2, 3]])).1 =
      Except.ok ((frame_of_bytes (pad24 [1, 2, 3])).can_id,
        (frame_of_bytes (pad24 [1, 2, 3])).can_dlc,
        (frame_of_bytes (pad24 [1, 2, 3])).data.take (frame_of_bytes (pad24 [1, 2, 3])).can_dlc,
        (frame_of_bytes (pad24 [1, 2, 3])).timestamp_us) := by
  obtain ⟨h1, h2, h3, h4, h5, h6, h7, h8, h9, h10, h11, h12, h13, h14, h15⟩ := codec_round_trip
  exact ⟨h1 _ (by decide), h2 _ (by decide), h3 _ (by decide), h4 _ (by decide),
    h5 _ (by decide), h6 _ (by decide), h7 _ (by decide), h8 _ (by decide), h9 _ (by decide),
    h10 _ (by decide), h11 _ (by decide), h12 _ (by decide), h13 _ (by decide),
    h14 _ (by decide), h15 _ [1, 2, 3] [] rfl rfl⟩

/-- Claim C7 counterexample: with an oracle answering every PID query with the
all-ones bitmap, GetSupportedPids returns exactly the PIDs 0..95 — the base
PIDs queried are only 0x00, 0x20 and 0x40 (the loop bound is baseId < 96), so
contrary to the claim the bases 0x60, 0x80 and 0xA0 are never queried and
PID 0x60 is absent from the all-ones result. -/
theorem supported_pid_bases_cex :
    GetSupportedPids (fun _ => some [255, 255, 255, 255]) = List.range 96 ∧
    96 ∉ GetSupportedPids (fun _ => some [255, 255, 255, 255]) := by
  refine ⟨by decide, by decide⟩

/-- Claim C7 as amended: the supported-PID bitmap operation queries exactly
the base PIDs 0x00, 0x20 and 0x40, decoding each at-least-4-byte response as
a big-endian 32-bit mask, bit i (MSB-first within each byte) set meaning
PID base+i is supported; response data FF FF FF FF for base 0 marks all of
PIDs 0..31 supported. -/
theorem supported_pid_decode (d : List Nat) (h4 : 4 ≤ d.length) :
    GetSupportedPids (fun b => if b = 0 then some d else none) = supported_bits d ∧
    GetSupportedPids (fun _ => some [255, 255, 255, 255]) = List.range 96 ∧
    supported_bits [255, 255, 255, 255] = List.range 32 ∧
    (∀ i, i < 32 → (i ∈ supported_bits d ↔ nth d (i / 8) &&& (128 >>> (i % 8)) ≠ 0)) := by
  refine ⟨?_, by decide, by decide, ?_⟩
  · have hb : (List.range 3).map (fun k => 32 * k) = [0, 32, 64] := rfl
    unfold GetSupportedPids
    rw [hb]
    simp [List.flatMap, h4]
  · intro i hi
    simp [supported_bits, List.mem_filter, List.mem_range, bne_iff_ne, land_seven_eq_mod, hi]

/-- Claim C7 witness: the amended statement at the all-ones bitmap. -/
theorem supported_pid_decode_witness :
    GetSupportedPids (fun b => if b = 0 then some [255, 255, 255, 255] else none) =
      supported_bits [255, 255, 255, 255] ∧
    GetSupportedPids (fun _ => some [255, 255, 255, 255]) = List.range 96 ∧
    supported_bits [255, 255, 255, 255] = List.range 32 ∧
    (∀ i, i < 32 → (i ∈ supported_bits [255, 255, 255, 255] ↔
      nth [255, 255, 255, 255] (i / 8) &&& (128 >>> (i % 8)) ≠ 0)) := by
  exact supported_pid_decode [255, 255, 255, 255] (by decide)

/-- Claim C8 counterexample: with the response frame carrying dlc 4 exactly as
the claim states it (length:4, data 04 41 0C 1A F8), the query returns the
single value byte 1A — length 4 - 3 = 1 — not the two bytes 1A F8, and the
RPM decoder, short of its two required bytes, returns the failure sentinel
instead of 1726. -/
theorem obd_scenario_dlc4_cex :
    (usb_can_read_obd_pid (openState
      [RxResult.ok (encode_frame ⟨0, 2015, 8, 0, 0, 0, [2, 1, 12, 85, 85, 85, 85, 85], 0⟩),
       RxResult.ok (encode_frame ⟨0, 2024, 4, 0, 0, 0, [4, 65, 12, 26, 248, 0, 0, 0], 0⟩)])
      12).1 = Except.ok [26] ∧
    ([26] : List Nat) ≠ [26, 248] ∧
    GetEngineRpm (some [26]) = -1 ∧ (-1 : ℚ) ≠ 1726 := by
  refine ⟨rfl, by decide, rfl, by decide⟩

/-- Claim C8 as amended: with the stubbed transport delivering first the echo
frame (can_id 0x7DF, data 02 01 0C 55 55 55 55 55) and then the response frame
with can_id 0x7E8, dlc 5 — covering the five listed payload bytes
04 41 0C 1A F8 — the query for PID 0x0C returns the value bytes 1A F8 and the
RPM decoder computes (0x1A*256 + 0xF8) / 4 = 1726. -/
theorem obd_scenario_rpm :
    (usb_can_read_obd_pid (openState
      [RxResult.ok (encode_frame ⟨0, 2015, 8, 0, 0, 0, [2, 1, 12, 85, 85, 85, 85, 85], 0⟩),
       RxResult.ok (encode_frame ⟨0, 2024, 5, 0, 0, 0, [4, 65, 12, 26, 248, 0, 0, 0], 0⟩)])
      12).1 = Except.ok [26, 248] ∧
    GetEngineRpm (some [26, 248]) = 1726 := by
  refine ⟨rfl, ?_⟩
  show ((26 * 256 + 248 : ℕ) : ℚ) / 4 = 1726
  norm_num

end Candle
